import Mathlib

/-
Shallow embedding of the Gemini tool-calling agent
(src/backend/ai/gemini.py, class Agent) and proofs about its
tool-invocation loop, tool-declaration generation, response
extraction and memory handling.

Conventions used throughout:
- Python values that flow through tool calls are modelled as String.
- A Python exception is modelled as the error branch of
  Except String, carrying the exception message.
- Python truthiness of an optional string field (for example
  response.text, part.text, part.function_call) is modelled by
  dedicated helper functions matching the exact checks in the source.
-/

namespace Gemini

deriving instance DecidableEq for Except

/-! ## Data model -/

/-- A Python type hint on a tool parameter, as inspected by
Agent._function_to_declaration: int, float, bool, str, or any other
hint class. -/
inductive PyAnn where
  | pyInt
  | pyFloat
  | pyBool
  | pyStr
  | pyOther
deriving DecidableEq

/-- One parameter of a Python callable, as seen through
inspect.signature: its name, optional type hint, and whether it has a
default value (param.default == inspect.Parameter.empty means no
default). -/
structure PyParam where
  name : String
  annot : Option PyAnn
  hasDefault : Bool
deriving DecidableEq

/-- A Python callable registered as a tool: dunder name, optional
docstring (inspect.getdoc result), parameter list, and its behaviour
when invoked with keyword arguments. Except.error models a raised
exception. -/
structure PyTool where
  name : String
  doc : Option String
  params : List PyParam
  run : List (String × String) → Except String String

/-- A function call requested by the model inside a completion:
function_call.name and function_call.args. -/
structure FunctionCall where
  name : String
  args : List (String × String)
deriving DecidableEq

/-- A content part of the Gemini API: may carry text, a function call,
or a function response (the pair is the tool name and its result, as
built by Part.from_function_response). Absent attributes are none. -/
structure Part where
  text : Option String := none
  function_call : Option FunctionCall := none
  function_response : Option (String × String) := none
deriving DecidableEq

/-- A conversation turn: google.genai.types.Content with a role and a
list of parts. -/
structure Content where
  role : String
  parts : List Part
deriving DecidableEq

/-- One candidate of a model response. -/
structure Candidate where
  content : Content
deriving DecidableEq

/-- A model completion: the SDK-level primary text field
(response.text, which may be None) and the list of candidates. -/
structure GenResponse where
  text : Option String
  candidates : List Candidate
deriving DecidableEq

/-- The parts of GenerateContentConfig that the agent sets: whether a
tools list was attached, the AutomaticFunctionCallingConfig disable
flag (none when the field was never set), and the system instruction. -/
structure GenConfig where
  hasTools : Bool := false
  autoCallingDisable : Option Bool := none
  systemInstruction : Option String := none
deriving DecidableEq

/-- One submission to the model endpoint: the contents list and the
config passed to generate_content. -/
structure GenSubmission where
  contents : List Content
  config : GenConfig
deriving DecidableEq

/-- The language-model endpoint: maps a submission to a completion, or
to a raised transport error. -/
abbrev Endpoint := GenSubmission → Except String GenResponse

/-- The chat-session object used in memory mode, reduced to the
conversation history it accumulates. -/
structure ChatSession where
  history : List Content
deriving DecidableEq

/-- An external message dict with optional role and content keys, as
accepted by inject_messages and last_n_messages; none models an absent
key. -/
structure PyMessage where
  role : Option String := none
  content : Option String := none
deriving DecidableEq

/-! ## Tool declarations (Agent._function_to_declaration,
Agent._create_tool_declarations) -/

/-- One property entry of a function declaration: parameter name, its
JSON-schema type string, and the synthesized description. -/
structure ParamSchema where
  pname : String
  ptype : String
  description : String
deriving DecidableEq

/-- A Gemini function declaration as built by
Agent._function_to_declaration: name, description, ordered property
list and required-parameter names. -/
structure ToolDeclaration where
  name : String
  description : String
  properties : List ParamSchema
  required : List String
deriving DecidableEq

/-- The type-hint branch of Agent._function_to_declaration: "string"
by default; int, float, bool, str map to integer, number, boolean,
string; any other hint leaves the default. -/
def paramTypeOf (p : PyParam) : String :=
  match p.annot with
  | none => "string"
  | some PyAnn.pyInt => "integer"
  | some PyAnn.pyFloat => "number"
  | some PyAnn.pyBool => "boolean"
  | some PyAnn.pyStr => "string"
  | some PyAnn.pyOther => "string"

/-- inspect.getdoc(func) or the synthesized fallback description; the
Python `or` also replaces an empty docstring. -/
def docOf (f : PyTool) : String :=
  match f.doc with
  | some d => if d == "" then "Function " ++ f.name else d
  | none => "Function " ++ f.name

/-- Agent._function_to_declaration: builds the declaration dict for
one callable, collecting one property per parameter in signature order
and marking parameters without a default as required. -/
def functionToDeclaration (f : PyTool) : ToolDeclaration :=
  { name := f.name
    description := docOf f
    properties := f.params.map fun p =>
      { pname := p.name
        ptype := paramTypeOf p
        description := "Parameter " ++ p.name }
    required := (f.params.filter fun p => !p.hasDefault).map PyParam.name }

/-- Agent._create_tool_declarations: one declaration per tool, in the
order the tools were given. -/
def createToolDeclarations (tools : List PyTool) : List ToolDeclaration :=
  tools.map functionToDeclaration

/-- The agent configuration fixed at construction time. The
tool-declaration list is derived from the tool set exactly as
Agent.__init__ stores it. -/
structure Agent where
  model : String
  agentName : String := "GeminiAgent"
  memory : Bool := false
  systemInstruction : Option String := none
  initialHistory : List Content := []
  lastNMessages : Option (List PyMessage) := none
  chatSession : Option ChatSession := none
  tools : List PyTool := []

/-- self._tool_declarations, computed once from the tool set. -/
def Agent.toolDeclarations (a : Agent) : List ToolDeclaration :=
  createToolDeclarations a.tools

/-- Modelled from the spec: the type mapping in the words of section
4.1 of the specification, to integer, number, boolean for int, float,
bool hints, to string for str, defaulting to string when untyped or
otherwise hinted. Stated separately so the source mapping paramTypeOf
can be compared against it. -/
def specParamType : Option PyAnn → String
  | some PyAnn.pyInt => "integer"
  | some PyAnn.pyFloat => "number"
  | some PyAnn.pyBool => "boolean"
  | some PyAnn.pyStr => "string"
  | some PyAnn.pyOther => "string"
  | none => "string"

/-! ## Text truthiness and response extraction -/

/-- Python truthiness of s.strip(): true when the string contains some
non-whitespace character. -/
def pyBlank (s : String) : Bool := s.data.all Char.isWhitespace

/-- The check `response.text is not None and response.text.strip()`
used at lines 191, 379 and 445 of the source. -/
def pyTruthyText : Option String → Bool
  | none => false
  | some s => !pyBlank s

/-- The per-part check `part.text and part.text.strip()` used when
scanning candidate parts for text. -/
def truthyPartText (p : Part) : Option String :=
  match p.text with
  | some s => if s != "" && !pyBlank s then some s else none
  | none => none

/-- The text-part scan of _send_function_results_memory (lines
383-397) and _send_function_results_stateless (lines 449-463): every
candidate, every part, keeping truthy texts in order. -/
def truthyTextParts (cands : List Candidate) : List String :=
  (cands.map fun c => c.content.parts.filterMap truthyPartText).flatten

/-- The fixed fallback string returned after tool-result resubmission
when the final completion holds no usable text. -/
def fallbackText : String :=
  "Function executed successfully, but no response was generated."

/-- The fixed fallback string of the memory-mode first round (line
204). -/
def noResponseText : String := "No response generated."

/-- Final-text extraction shared by _send_function_results_memory and
_send_function_results_stateless: primary text field first, then
concatenated truthy text parts of all candidates, then the fallback
string. -/
def finalTextOf (r : GenResponse) : String :=
  if pyTruthyText r.text then (r.text.getD "")
  else
    let tps := truthyTextParts r.candidates
    if tps.isEmpty then fallbackText else String.join tps

/-- The no-function-call branch of the memory-mode first round (lines
189-204): primary text, else truthy text parts of the first candidate
only, else the fixed string. -/
def firstRoundTextMemory (r : GenResponse) : String :=
  if pyTruthyText r.text then (r.text.getD "")
  else
    let tps :=
      match r.candidates with
      | [] => []
      | c :: _ => c.content.parts.filterMap truthyPartText
    if tps.isEmpty then noResponseText else String.join tps

/-- Function-call extraction of the memory path (lines 156-161 and
344-349): guarded on a nonempty candidate list, scanning the first
candidate. -/
def extractCallsMemory (r : GenResponse) : List FunctionCall :=
  match r.candidates with
  | [] => []
  | c :: _ => c.content.parts.filterMap fun p => p.function_call

/-- Function-call extraction of the stateless first round (lines
232-236): response.candidates[0] is read without a guard, so an empty
candidate list raises an IndexError that the enclosing handler
re-raises. -/
def extractCallsStateless (r : GenResponse) : Except String (List FunctionCall) :=
  match r.candidates with
  | [] => Except.error "IndexError: list index out of range"
  | c :: _ => Except.ok (c.content.parts.filterMap fun p => p.function_call)

/-! ## Tool lookup and execution -/

/-- The lookup loop over self._tools comparing dunder names (lines
172-177): first match wins. -/
def findTool (tools : List PyTool) (nm : String) : Option PyTool :=
  tools.find? fun t => t.name == nm

/-- The textual error result recorded when a requested name matches no
registered tool (lines 185, 260, 373). -/
def notFoundText (nm : String) : String :=
  "Error: Function " ++ nm ++ " not found"

/-- The execution loop over a batch of requested function calls (lines
166-185, 241-260, 354-373): each call is resolved by name; a missing
name contributes a textual error result and the loop continues; the
resolved tool is invoked with no exception handler, so a raised
exception aborts the whole batch and propagates. -/
def execFunctionCalls (tools : List PyTool) :
    List FunctionCall → Except String (List (String × String))
  | [] => Except.ok []
  | c :: rest =>
    match findTool tools c.name with
    | some t =>
      match t.run c.args with
      | Except.error e => Except.error e
      | Except.ok v =>
        match execFunctionCalls tools rest with
        | Except.error e => Except.error e
        | Except.ok rs => Except.ok ((c.name, v) :: rs)
    | none =>
      match execFunctionCalls tools rest with
      | Except.error e => Except.error e
      | Except.ok rs => Except.ok ((c.name, notFoundText c.name) :: rs)

/-- Part.from_function_response(name=..., response=\x7b"result": ...\x7d)
for one collected result. -/
def functionResponsePart (nr : String × String) : Part :=
  { function_response := some nr }

/-- The function-response parts built from a result batch, in result
order (lines 330-337, 410-418). -/
def buildFunctionResponseParts (results : List (String × String)) : List Part :=
  results.map functionResponsePart

/-- A user content holding one text part, as built for the prompt in
the stateless path (line 211). -/
def textPart (s : String) : Part := { text := some s }

/-- The user turn carrying the prompt. -/
def promptContent (p : String) : Content := { role := "user", parts := [textPart p] }

/-- The single synthetic turn carrying the whole batch of function
responses (lines 420-422: one Content with all response parts). -/
def resultContent (results : List (String × String)) : Content :=
  { role := "user", parts := buildFunctionResponseParts results }

/-! ## Stateless tool-call path -/

/-- The config of the stateless first round (lines 214-224): tools
attached and automatic function calling left enabled when declarations
exist, plus the system instruction. -/
def statelessFirstConfig (a : Agent) : GenConfig :=
  { hasTools := !a.toolDeclarations.isEmpty
    autoCallingDisable :=
      if a.toolDeclarations.isEmpty then none else some false
    systemInstruction := a.systemInstruction }

/-- The config of the resubmission round (lines 424-434): when
declarations exist, tools are attached with automatic function calling
disabled to prevent loops. -/
def statelessFinalConfig (a : Agent) : GenConfig :=
  { hasTools := !a.toolDeclarations.isEmpty
    autoCallingDisable :=
      if a.toolDeclarations.isEmpty then none else some true
    systemInstruction := a.systemInstruction }

/-- The first stateless submission for a prompt. -/
def firstSub (a : Agent) (p : String) : GenSubmission :=
  { contents := [promptContent p], config := statelessFirstConfig a }

/-- Agent._send_function_results_stateless: append one synthetic user
turn holding every function-response part, resubmit once with the
final config, and extract text from whatever comes back. Returns the
outcome together with the list of submissions this step made. -/
def sendFunctionResultsStateless (a : Agent) (ep : Endpoint)
    (conversationContents : List Content) (results : List (String × String)) :
    Except String (Option String) × List GenSubmission :=
  let contents := conversationContents ++ [resultContent results]
  let sub : GenSubmission := { contents := contents, config := statelessFinalConfig a }
  match ep sub with
  | Except.error e => (Except.error e, [sub])
  | Except.ok r => (Except.ok (some (finalTextOf r)), [sub])

/-- The outcome of one stateless tool_call invocation: the returned
value (Except.error for a propagated exception; the payload is
response.text and may be none because line 266 returns it unchecked)
together with every submission made to the endpoint. -/
structure StatelessResult where
  result : Except String (Option String)
  submissions : List GenSubmission
deriving DecidableEq

/-- The stateless branch of Agent.tool_call (lines 209-270): build a
fresh one-turn conversation, submit, execute any requested calls, and
either resubmit the results once or return response.text directly. -/
def toolCallStateless (a : Agent) (ep : Endpoint) (prompt : String) : StatelessResult :=
  let conversationContents := [promptContent prompt]
  let sub1 := firstSub a prompt
  match ep sub1 with
  | Except.error e => { result := Except.error e, submissions := [sub1] }
  | Except.ok r =>
    match extractCallsStateless r with
    | Except.error e => { result := Except.error e, submissions := [sub1] }
    | Except.ok calls =>
      if calls.isEmpty then
        { result := Except.ok r.text, submissions := [sub1] }
      else
        match execFunctionCalls a.tools calls with
        | Except.error e => { result := Except.error e, submissions := [sub1] }
        | Except.ok results =>
          let step := sendFunctionResultsStateless a ep conversationContents results
          { result := step.1, submissions := sub1 :: step.2 }

/-! ## Memory-mode tool-call path -/

/-- The config built by _initialize_chat_session (lines 72-98): system
instruction, tools when declarations exist, automatic function calling
enabled. -/
def memoryConfig (a : Agent) : GenConfig :=
  { hasTools := !a.toolDeclarations.isEmpty
    autoCallingDisable :=
      if a.toolDeclarations.isEmpty then none else some false
    systemInstruction := a.systemInstruction }

/-- The model turn recorded from a completion. -/
def responseContent (r : GenResponse) : Content :=
  match r.candidates with
  | [] => { role := "model", parts := [] }
  | c :: _ => c.content

/-- Modelled from the spec: chat_session.send_message of the external
endpoint collaborator (the google.genai chat object is not part of
this repository). Per the collaborator contract of sections 4.2 and 7
of the specification, a submission failure leaves the conversation
state unmodified; on success the new turn and the model turn are
appended. Returns the completion or raised error, paired with the
session afterwards. -/
def ChatSession.sendMessage (ep : Endpoint) (cfg : GenConfig)
    (s : ChatSession) (c : Content) :
    Except String GenResponse × ChatSession :=
  match ep { contents := s.history ++ [c], config := cfg } with
  | Except.error e => (Except.error e, s)
  | Except.ok r =>
    (Except.ok r, { history := s.history ++ [c] ++ [responseContent r] })

/-- The outcome of the memory-mode path: a returned text, a propagated
exception, or exhaustion of the step budget that bounds the unbounded
recursion of the source; each carries the chat session at that point. -/
inductive MemOutcome where
  | done (text : String) (s : ChatSession)
  | raised (e : String) (s : ChatSession)
  | fuelExhausted (s : ChatSession)
deriving DecidableEq

/-- True exactly on the budget-exhaustion outcome. -/
def MemOutcome.isFuelExhausted : MemOutcome → Bool
  | MemOutcome.fuelExhausted _ => true
  | _ => false

/-- Agent._send_function_results_memory (lines 325-404): send the
batched function-response parts to the chat session; when the next
completion requests calls again, execute them and recurse; otherwise
extract text. The source recursion has no bound, so the model carries
an explicit step budget: fuelExhausted means the source code would
still be recursing after that many round-trips. -/
def sendFunctionResultsMemory (tools : List PyTool) (ep : Endpoint)
    (cfg : GenConfig) (s : ChatSession) (results : List (String × String)) :
    Nat → MemOutcome
  | 0 => MemOutcome.fuelExhausted s
  | Nat.succ n =>
    match ChatSession.sendMessage ep cfg s (resultContent results) with
    | (Except.error e, s2) => MemOutcome.raised e s2
    | (Except.ok r, s2) =>
      let calls := extractCallsMemory r
      if calls.isEmpty then MemOutcome.done (finalTextOf r) s2
      else
        match execFunctionCalls tools calls with
        | Except.error e => MemOutcome.raised e s2
        | Except.ok newResults =>
          sendFunctionResultsMemory tools ep cfg s2 newResults n

/-- The memory branch of Agent.tool_call (lines 151-208): send the
prompt through the chat session, execute any requested calls and hand
off to the result-resubmission recursion, or extract first-round
text. A raised exception (endpoint failure or tool exception) is
logged and re-raised. -/
def toolCallMemory (a : Agent) (ep : Endpoint) (s : ChatSession)
    (prompt : String) (fuel : Nat) : MemOutcome :=
  match ChatSession.sendMessage ep (memoryConfig a) s (promptContent prompt) with
  | (Except.error e, s2) => MemOutcome.raised e s2
  | (Except.ok r, s2) =>
    let calls := extractCallsMemory r
    if calls.isEmpty then MemOutcome.done (firstRoundTextMemory r) s2
    else
      match execFunctionCalls a.tools calls with
      | Except.error e => MemOutcome.raised e s2
      | Except.ok results =>
        sendFunctionResultsMemory a.tools ep (memoryConfig a) s2 results fuel

/-! ## Agent memory management -/

/-- Agent._convert_messages_to_content (lines 58-70): keep messages
holding both the role and the content key, skip the rest. -/
def convertMessagesToContent (msgs : List PyMessage) : List Content :=
  msgs.filterMap fun m =>
    match m.role, m.content with
    | some r, some c => some { role := r, parts := [textPart c] }
    | _, _ => none

/-- Agent._initialize_chat_session (history assembly, lines 85-99): a
fresh session seeded with the initial history, extended by the
converted injected messages when that list is truthy (non-None and
nonempty). -/
def Agent.initializeChatSession (a : Agent) : Agent :=
  let base := a.initialHistory
  let history :=
    match a.lastNMessages with
    | some msgs =>
      if msgs.isEmpty then base else base ++ convertMessagesToContent msgs
    | none => base
  { a with chatSession := some { history := history } }

/-- Agent.clear_memory (lines 490-496): reinitialize the chat session
when memory is enabled, otherwise only log a warning. -/
def Agent.clearMemory (a : Agent) : Agent :=
  if a.memory then a.initializeChatSession else a

/-- Agent.inject_messages (lines 498-511): return immediately when
memory is disabled; otherwise store the messages and reinitialize the
session. -/
def Agent.injectMessages (a : Agent) (msgs : List PyMessage) : Agent :=
  if a.memory then
    ({ a with lastNMessages := some msgs } : Agent).initializeChatSession
  else a

/-! ## Helper lemmas -/

/-- A successful batch execution yields one result per requested call,
carrying the requested names in request order. -/
theorem execOk_names (tools : List PyTool) :
    ∀ (calls : List FunctionCall) (results : List (String × String)),
      execFunctionCalls tools calls = Except.ok results →
      results.map Prod.fst = calls.map FunctionCall.name := by
  intro calls
  induction calls with
  | nil =>
    intro results h
    simp only [execFunctionCalls] at h
    injection h with h2
    subst h2
    rfl
  | cons c rest ih =>
    intro results h
    simp only [execFunctionCalls] at h
    cases hf : findTool tools c.name with
    | some t =>
      simp only [hf] at h
      cases hr : t.run c.args with
      | error e => simp only [hr] at h; exact Except.noConfusion h
      | ok v =>
        simp only [hr] at h
        cases he : execFunctionCalls tools rest with
        | error e => simp only [he] at h; exact Except.noConfusion h
        | ok rs =>
          simp only [he] at h
          injection h with h2
          subst h2
          simp [ih rs he]
    | none =>
      simp only [hf] at h
      cases he : execFunctionCalls tools rest with
      | error e => simp only [he] at h; exact Except.noConfusion h
      | ok rs =>
        simp only [he] at h
        injection h with h2
        subst h2
        simp [ih rs he]

/-- When no requested name resolves, the batch still executes to a
successful list of textual error results, one per call in order. -/
theorem execAllNotFound (tools : List PyTool) :
    ∀ calls : List FunctionCall,
      (∀ c ∈ calls, findTool tools c.name = none) →
      execFunctionCalls tools calls
        = Except.ok (calls.map fun c => (c.name, notFoundText c.name)) := by
  intro calls
  induction calls with
  | nil => intro _; rfl
  | cons c rest ih =>
    intro h
    have hc : findTool tools c.name = none := h c (by simp)
    have hrest := ih fun d hd => h d (by simp [hd])
    simp only [execFunctionCalls, hc, hrest, List.map]

/-- A resolved tool that raises aborts the whole batch with that
exception: no per-call capture, no result list. -/
theorem execFirstRaises (tools : List PyTool) (c : FunctionCall)
    (rest : List FunctionCall) (t : PyTool) (e : String)
    (hf : findTool tools c.name = some t)
    (hr : t.run c.args = Except.error e) :
    execFunctionCalls tools (c :: rest) = Except.error e := by
  simp only [execFunctionCalls, hf, hr]

/-- The resubmission step always makes exactly this one submission,
whether the endpoint succeeds or fails. -/
theorem sendStateless_subs (a : Agent) (ep : Endpoint)
    (cc : List Content) (results : List (String × String)) :
    (sendFunctionResultsStateless a ep cc results).2
      = [{ contents := cc ++ [resultContent results]
           config := statelessFinalConfig a }] := by
  unfold sendFunctionResultsStateless
  dsimp only
  split <;> rfl

/-- Every stateless invocation submits either just the prompt
conversation, or the prompt conversation followed by one resubmission
carrying a batched result turn. -/
theorem toolCallStateless_submissions (a : Agent) (ep : Endpoint) (p : String) :
    (toolCallStateless a ep p).submissions = [firstSub a p]
  ∨ ∃ results,
      (toolCallStateless a ep p).submissions
        = [firstSub a p,
           { contents := [promptContent p, resultContent results]
             config := statelessFinalConfig a }] := by
  unfold toolCallStateless
  dsimp only
  split
  · exact Or.inl rfl
  · split
    · exact Or.inl rfl
    · split
      · exact Or.inl rfl
      · split
        · exact Or.inl rfl
        · rename_i results hres
          refine Or.inr ⟨results, ?_⟩
          simp [sendStateless_subs, firstSub]

/-! ## Claim theorems -/

/-- Claim C3: declaration generation produces exactly one
ToolDeclaration per callable, in input order; parameter types map int,
float, bool, str to integer, number, boolean, string and default to
string otherwise; the required list holds exactly the parameters
without a default, in order. Determinism holds because the embedding
is a pure function of the tool list. -/
theorem claim_C3_declarations :
    (∀ tools : List PyTool,
       createToolDeclarations tools = tools.map functionToDeclaration)
  ∧ (∀ tools : List PyTool,
       (createToolDeclarations tools).length = tools.length)
  ∧ (∀ f : PyTool,
       (functionToDeclaration f).required
         = (f.params.filter fun p => !p.hasDefault).map PyParam.name)
  ∧ (∀ f : PyTool,
       (functionToDeclaration f).properties.map ParamSchema.pname
         = f.params.map PyParam.name)
  ∧ (∀ f : PyTool,
       (functionToDeclaration f).properties.map ParamSchema.ptype
         = f.params.map fun p => specParamType p.annot)
  ∧ (∀ p : PyParam, paramTypeOf p = specParamType p.annot) := by
  have hty : ∀ p : PyParam, paramTypeOf p = specParamType p.annot := by
    intro p
    cases hp : p.annot with
    | none => simp [paramTypeOf, specParamType, hp]
    | some an => cases an <;> simp [paramTypeOf, specParamType, hp]
  refine ⟨fun tools => rfl, ?_, fun f => rfl, ?_, ?_, hty⟩
  · intro tools
    simp [createToolDeclarations]
  · intro f
    simp [functionToDeclaration]
  · intro f
    simp only [functionToDeclaration, List.map_map]
    exact List.map_congr_left fun p _ => hty p

/-- Claim C10: on an agent constructed without memory, clear_memory
and inject_messages change nothing: the agent record is returned
unchanged, so no stored message list and no chat session is created
and no later call can observe the injected messages. -/
theorem claim_C10_memoryless_noops (a : Agent) (msgs : List PyMessage)
    (h : a.memory = false) :
    a.clearMemory = a ∧ a.injectMessages msgs = a := by
  constructor
  · simp [Agent.clearMemory, h]
  · simp [Agent.injectMessages, h]

/-- A concrete memory-disabled agent. -/
def agentC10 : Agent := { model := "gemini-pro" }

/-- Witness for claim C10 at a concrete agent and message list. -/
theorem claim_C10_witness :
    agentC10.clearMemory = agentC10 ∧
    agentC10.injectMessages [{ role := some "user", content := some "hi" }] = agentC10 :=
  claim_C10_memoryless_noops agentC10
    [{ role := some "user", content := some "hi" }] rfl

/-! ## Claim C1 -/

/-- A registered tool whose execution raises. -/
def raiserTool : PyTool :=
  { name := "boomer", doc := none, params := [], run := fun _ => Except.error "boom" }

/-- A sibling tool that would succeed if executed. -/
def echoTool : PyTool :=
  { name := "echo", doc := none, params := [], run := fun _ => Except.ok "echo-ran" }

/-- Agent registering the raising tool and its sibling. -/
def agentC1 : Agent := { model := "m", tools := [raiserTool, echoTool] }

/-- A completion requesting both tools in one batch, the raising one
first. -/
def respC1 : GenResponse :=
  { text := none
    candidates := [{ content :=
      { role := "model"
        parts := [{ function_call := some { name := "boomer", args := [] } },
                  { function_call := some { name := "echo", args := [] } }] } }] }

/-- Endpoint answering every submission with that batch. -/
def epC1 : Endpoint := fun _ => Except.ok respC1

/-- Claim C1 counterexample: with a batch of two requested calls whose
first tool raises, tool execution has no per-call handler: the
exception aborts the batch, the sibling echo call contributes no
result, nothing is resubmitted (a single submission was made), and
tool_call propagates the raw exception instead of an ExecutionError
value. -/
theorem claim_C1_counterexample :
    execFunctionCalls agentC1.tools
        [{ name := "boomer", args := [] }, { name := "echo", args := [] }]
      = Except.error "boom"
  ∧ (toolCallStateless agentC1 epC1 "go").result = Except.error "boom"
  ∧ (toolCallStateless agentC1 epC1 "go").submissions.length = 1 := by
  refine ⟨rfl, rfl, rfl⟩

/-- Claim C1 (amended): when a requested tool raises during execution,
the exception is not captured per call: batch execution aborts with
that exception, the loop makes no resubmission (only the original
submission happened), and tool_call propagates the exception to the
caller. Only a missing tool name is converted to a textual error
result. -/
theorem claim_C1_exception_aborts_batch (a : Agent) (ep : Endpoint)
    (prompt : String) (r : GenResponse) (c : FunctionCall)
    (rest : List FunctionCall) (t : PyTool) (e : String)
    (hfind : findTool a.tools c.name = some t)
    (hrun : t.run c.args = Except.error e)
    (hep : ep (firstSub a prompt) = Except.ok r)
    (hx : extractCallsStateless r = Except.ok (c :: rest)) :
    execFunctionCalls a.tools (c :: rest) = Except.error e
  ∧ (toolCallStateless a ep prompt).result = Except.error e
  ∧ (toolCallStateless a ep prompt).submissions = [firstSub a prompt] := by
  have hexec := execFirstRaises a.tools c rest t e hfind hrun
  refine ⟨hexec, ?_, ?_⟩ <;>
    simp [toolCallStateless, hep, hx, hexec]

/-- Witness for the amended claim C1 at the concrete failing batch. -/
theorem claim_C1_witness :
    execFunctionCalls agentC1.tools
        ({ name := "boomer", args := [] } :: [{ name := "echo", args := [] }])
      = Except.error "boom"
  ∧ (toolCallStateless agentC1 epC1 "go").result = Except.error "boom"
  ∧ (toolCallStateless agentC1 epC1 "go").submissions = [firstSub agentC1 "go"] :=
  claim_C1_exception_aborts_batch agentC1 epC1 "go" respC1
    { name := "boomer", args := [] } [{ name := "echo", args := [] }]
    raiserTool "boom" rfl rfl rfl rfl

/-! ## Claim C2 -/

/-- A harmless tool the pathological endpoint keeps requesting. -/
def noopTool : PyTool :=
  { name := "noop", doc := none, params := [], run := fun _ => Except.ok "ok" }

/-- A memory-enabled agent with that tool. -/
def agentC2 : Agent := { model := "m", memory := true, tools := [noopTool] }

/-- The pathological completion: it always requests one more call. -/
def respC2 : GenResponse :=
  { text := none
    candidates := [{ content :=
      { role := "model"
        parts := [{ function_call := some { name := "noop", args := [] } }] } }] }

/-- The pathological endpoint of the claim: every round answers with a
new function-call request. -/
def epC2 : Endpoint := fun _ => Except.ok respC2

/-- Under the pathological endpoint the memory-mode result-resubmission
recursion consumes any step budget without terminating. -/
theorem sendResultsMemory_spins :
    ∀ (n : Nat) (s : ChatSession) (results : List (String × String)),
      (sendFunctionResultsMemory agentC2.tools epC2 (memoryConfig agentC2)
          s results n).isFuelExhausted = true := by
  intro n
  induction n with
  | zero => intro s results; rfl
  | succ n ih => intro s results; exact ih _ _

/-- Claim C2 (the code lacks the mandated bound): with the pathological
always-request-a-tool-call endpoint, the memory-mode tool_call never
reaches a text or error outcome no matter how many round-trips it is
allowed; the source recursion in _send_function_results_memory has no
iteration cap, so it never terminates on this endpoint instead of
returning a best-available text or a loop-exceeded error. -/
theorem claim_C2_memory_loop_unbounded :
    ∀ (fuel : Nat) (s : ChatSession),
      (toolCallMemory agentC2 epC2 s "p" fuel).isFuelExhausted = true := by
  intro fuel s
  exact sendResultsMemory_spins fuel _ _

/-! ## Claim C4 -/

/-- Claim C4: when a completion requests two or more calls and every
execution succeeds, each call yields exactly one result, the results
carry the requested names in request order, and they are resubmitted
as one synthetic user turn holding every response part, appended to
the original conversation in a single second submission. -/
theorem claim_C4_batch_order (a : Agent) (ep : Endpoint) (prompt : String)
    (r : GenResponse) (calls : List FunctionCall)
    (results : List (String × String))
    (hep : ep (firstSub a prompt) = Except.ok r)
    (hx : extractCallsStateless r = Except.ok calls)
    (hlen : 2 ≤ calls.length)
    (hexec : execFunctionCalls a.tools calls = Except.ok results) :
    results.map Prod.fst = calls.map FunctionCall.name
  ∧ (toolCallStateless a ep prompt).submissions
      = [firstSub a prompt,
         { contents := [promptContent prompt, resultContent results]
           config := statelessFinalConfig a }] := by
  have hnames := execOk_names a.tools calls results hexec
  have hne : calls.isEmpty = false := by
    cases calls with
    | nil => simp at hlen
    | cons c cs => rfl
  refine ⟨hnames, ?_⟩
  simp [toolCallStateless, hep, hx, hne, hexec, sendStateless_subs]

/-- First of two sibling tools. -/
def toolA : PyTool :=
  { name := "alpha", doc := none, params := [], run := fun _ => Except.ok "ra" }

/-- Second of two sibling tools. -/
def toolB : PyTool :=
  { name := "beta", doc := none, params := [], run := fun _ => Except.ok "rb" }

/-- Agent registering both sibling tools. -/
def agentC4 : Agent := { model := "m", tools := [toolA, toolB] }

/-- A completion requesting both tools in one batch. -/
def respC4 : GenResponse :=
  { text := none
    candidates := [{ content :=
      { role := "model"
        parts := [{ function_call := some { name := "alpha", args := [] } },
                  { function_call := some { name := "beta", args := [] } }] } }] }

/-- Endpoint producing the two-call batch. -/
def epC4 : Endpoint := fun _ => Except.ok respC4

/-- Witness for claim C4 with a concrete two-call batch. -/
theorem claim_C4_witness :
    ([("alpha", "ra"), ("beta", "rb")] : List (String × String)).map Prod.fst
      = ([{ name := "alpha", args := [] },
          { name := "beta", args := [] }] : List FunctionCall).map FunctionCall.name
  ∧ (toolCallStateless agentC4 epC4 "go").submissions
      = [firstSub agentC4 "go",
         { contents := [promptContent "go",
                        resultContent [("alpha", "ra"), ("beta", "rb")]]
           config := statelessFinalConfig agentC4 }] :=
  claim_C4_batch_order agentC4 epC4 "go" respC4
    [{ name := "alpha", args := [] }, { name := "beta", args := [] }]
    [("alpha", "ra"), ("beta", "rb")]
    rfl rfl (by decide) rfl

/-! ## Claim C5 -/

/-- Claim C5: a requested name matching no registered tool never
raises: the whole batch still executes to a result list in which that
call is represented by the textual error carrying the missing name,
the batch is resubmitted, and the loop returns the final-round text
normally. Stated for a batch in which every name is unregistered, the
worst case. -/
theorem claim_C5_tool_not_found (a : Agent) (ep : Endpoint) (prompt : String)
    (r r2 : GenResponse) (calls : List FunctionCall)
    (hep : ep (firstSub a prompt) = Except.ok r)
    (hx : extractCallsStateless r = Except.ok calls)
    (hne : calls.isEmpty = false)
    (hmiss : ∀ c ∈ calls, findTool a.tools c.name = none)
    (hep2 : ep { contents := [promptContent prompt,
                   resultContent (calls.map fun c => (c.name, notFoundText c.name))]
                 config := statelessFinalConfig a } = Except.ok r2) :
    execFunctionCalls a.tools calls
      = Except.ok (calls.map fun c => (c.name, notFoundText c.name))
  ∧ (toolCallStateless a ep prompt).result = Except.ok (some (finalTextOf r2))
  ∧ (toolCallStateless a ep prompt).submissions.length = 2 := by
  have hok := execAllNotFound a.tools calls hmiss
  refine ⟨hok, ?_, ?_⟩ <;>
    simp [toolCallStateless, hep, hx, hne, hok,
      sendFunctionResultsStateless, hep2]

/-- Agent with an empty tool registry. -/
def agentC5 : Agent := { model := "m" }

/-- A completion requesting a tool nobody registered. -/
def respC5 : GenResponse :=
  { text := some "called a ghost"
    candidates := [{ content :=
      { role := "model"
        parts := [{ function_call := some { name := "ghost", args := [] } }] } }] }

/-- Endpoint producing the unknown-tool request. -/
def epC5 : Endpoint := fun _ => Except.ok respC5

/-- Witness for claim C5 at a concrete unknown-name request. -/
theorem claim_C5_witness :
    execFunctionCalls agentC5.tools [{ name := "ghost", args := [] }]
      = Except.ok (([{ name := "ghost", args := [] }] : List FunctionCall).map
          fun c => (c.name, notFoundText c.name))
  ∧ (toolCallStateless agentC5 epC5 "go").result
      = Except.ok (some (finalTextOf respC5))
  ∧ (toolCallStateless agentC5 epC5 "go").submissions.length = 2 :=
  claim_C5_tool_not_found agentC5 epC5 "go" respC5 respC5
    [{ name := "ghost", args := [] }]
    rfl rfl rfl (fun _ _ => rfl) rfl

/-! ## Claim C6 -/

/-- Agent with an empty tool registry, stateless mode. -/
def agentC6 : Agent := { model := "m" }

/-- A degenerate empty completion: no primary text, one candidate
whose single part has no text, no function call and no function
response. -/
def respC6 : GenResponse :=
  { text := none
    candidates := [{ content := { role := "model", parts := [{}] } }] }

/-- Endpoint answering every submission with the empty completion. -/
def epC6 : Endpoint := fun _ => Except.ok respC6

/-- Claim C6 counterexample: on the stateless first round, an empty
completion makes tool_call return response.text unchanged, which is
the absent value none, not a fixed fallback string. -/
theorem claim_C6_counterexample :
    (toolCallStateless agentC6 epC6 "hi").result = Except.ok none
  ∧ (Except.ok none : Except String (Option String)) ≠ Except.ok (some noResponseText)
  ∧ (Except.ok none : Except String (Option String)) ≠ Except.ok (some fallbackText) := by
  refine ⟨rfl, by decide, by decide⟩

/-- Claim C6 (amended): for an empty completion the memory-mode first
round returns the fixed string of line 204, and both resubmission
paths return the fixed string of lines 400 and 466; but the stateless
first round returns the primary text field unchanged, so an empty
completion there yields none rather than a fallback string. -/
theorem claim_C6_empty_fallbacks (a : Agent) (ep : Endpoint) (prompt : String)
    (r : GenResponse) (s : ChatSession) (fuel : Nat)
    (results : List (String × String))
    (hconst : ∀ sub, ep sub = Except.ok r)
    (htext : pyTruthyText r.text = false)
    (hparts : ∀ c ∈ r.candidates, ∀ pt ∈ c.content.parts,
        pt.function_call = none ∧ truthyPartText pt = none)
    (hcand : r.candidates ≠ []) :
    firstRoundTextMemory r = noResponseText
  ∧ finalTextOf r = fallbackText
  ∧ toolCallMemory a ep s prompt fuel
      = MemOutcome.done noResponseText
          { history := s.history ++ [promptContent prompt] ++ [responseContent r] }
  ∧ sendFunctionResultsMemory a.tools ep (memoryConfig a) s results (fuel + 1)
      = MemOutcome.done fallbackText
          { history := s.history ++ [resultContent results] ++ [responseContent r] }
  ∧ (toolCallStateless a ep prompt).result = Except.ok r.text := by
  rcases List.exists_cons_of_ne_nil hcand with ⟨c0, cs, hc⟩
  have hmem0 : c0 ∈ r.candidates := by rw [hc]; exact List.mem_cons_self c0 cs
  have hfc : c0.content.parts.filterMap (fun p => p.function_call) = [] := by
    rw [List.filterMap_eq_nil_iff]
    exact fun pt hpt => (hparts c0 hmem0 pt hpt).1
  have htp : c0.content.parts.filterMap truthyPartText = [] := by
    rw [List.filterMap_eq_nil_iff]
    exact fun pt hpt => (hparts c0 hmem0 pt hpt).2
  have hcallsM : extractCallsMemory r = [] := by
    simp [extractCallsMemory, hc, hfc]
  have hcallsS : extractCallsStateless r = Except.ok [] := by
    simp [extractCallsStateless, hc, hfc]
  have hfirst : firstRoundTextMemory r = noResponseText := by
    simp [firstRoundTextMemory, htext, hc, htp]
  have hall : truthyTextParts r.candidates = [] := by
    rw [truthyTextParts, List.flatten_eq_nil_iff]
    intro l hl
    rcases List.mem_map.mp hl with ⟨c, hcmem, rfl⟩
    rw [List.filterMap_eq_nil_iff]
    exact fun pt hpt => (hparts c hcmem pt hpt).2
  have hfin : finalTextOf r = fallbackText := by
    simp [finalTextOf, htext, hall]
  refine ⟨hfirst, hfin, ?_, ?_, ?_⟩
  · simp [toolCallMemory, ChatSession.sendMessage, hconst, hcallsM, hfirst]
  · simp [sendFunctionResultsMemory, ChatSession.sendMessage, hconst, hcallsM, hfin]
  · simp [toolCallStateless, hconst, hcallsS]

/-- Chat session used by the claim C6 witness. -/
def sessC6 : ChatSession := { history := [] }

/-- Witness for the amended claim C6 at the concrete empty
completion. -/
theorem claim_C6_witness :
    firstRoundTextMemory respC6 = noResponseText
  ∧ finalTextOf respC6 = fallbackText
  ∧ toolCallMemory agentC6 epC6 sessC6 "hi" 0
      = MemOutcome.done noResponseText
          { history := sessC6.history ++ [promptContent "hi"] ++ [responseContent respC6] }
  ∧ sendFunctionResultsMemory agentC6.tools epC6 (memoryConfig agentC6)
        sessC6 [("t", "v")] (0 + 1)
      = MemOutcome.done fallbackText
          { history := sessC6.history ++ [resultContent [("t", "v")]] ++ [responseContent respC6] }
  ∧ (toolCallStateless agentC6 epC6 "hi").result = Except.ok respC6.text :=
  claim_C6_empty_fallbacks agentC6 epC6 "hi" respC6 sessC6 0 [("t", "v")]
    (fun _ => rfl) rfl (by decide) (by decide)

/-! ## Claim C7 -/

/-- Claim C7: after executing a stateless batch, the resubmission step
makes exactly one further endpoint submission; when tool declarations
exist its config disables automatic function calling; and the result
is the extracted text of whatever completion that submission returns,
with no further tool execution, so a whole stateless invocation never
exceeds two submissions. -/
theorem claim_C7_final_round_disabled (a : Agent) (ep : Endpoint)
    (prompt : String) (cc : List Content)
    (results : List (String × String)) (r2 : GenResponse)
    (hdecl : a.toolDeclarations ≠ [])
    (hep : ep { contents := cc ++ [resultContent results]
                config := statelessFinalConfig a } = Except.ok r2) :
    (sendFunctionResultsStateless a ep cc results).2.length = 1
  ∧ (sendFunctionResultsStateless a ep cc results).2.map GenSubmission.config
      = [statelessFinalConfig a]
  ∧ (statelessFinalConfig a).autoCallingDisable = some true
  ∧ (sendFunctionResultsStateless a ep cc results).1
      = Except.ok (some (finalTextOf r2))
  ∧ (toolCallStateless a ep prompt).submissions.length ≤ 2 := by
  have hsubs := sendStateless_subs a ep cc results
  have hemp : a.toolDeclarations.isEmpty = false := by
    simp [List.isEmpty_eq_false]
    exact hdecl
  refine ⟨by rw [hsubs]; rfl, by rw [hsubs]; rfl, ?_, ?_, ?_⟩
  · simp [statelessFinalConfig, hemp]
  · simp [sendFunctionResultsStateless, hep]
  · rcases toolCallStateless_submissions a ep prompt with h | ⟨rs, h⟩ <;> simp [h]

/-- The tool of the claim C7 witness agent. -/
def toolC7 : PyTool :=
  { name := "gamma", doc := none, params := [], run := fun _ => Except.ok "g" }

/-- Agent with one registered tool, so declarations are nonempty. -/
def agentC7 : Agent := { model := "m", tools := [toolC7] }

/-- A final completion that still requests a function call: the
stateless path must ignore the request and extract text anyway. -/
def respC7 : GenResponse :=
  { text := none
    candidates := [{ content :=
      { role := "model"
        parts := [{ function_call := some { name := "gamma", args := [] } }] } }] }

/-- Endpoint answering with the still-requesting completion. -/
def epC7 : Endpoint := fun _ => Except.ok respC7

/-- Witness for claim C7 at a concrete resubmission whose final
completion still asks for a tool call. -/
theorem claim_C7_witness :
    (sendFunctionResultsStateless agentC7 epC7 [promptContent "go"] [("gamma", "g")]).2.length = 1
  ∧ (sendFunctionResultsStateless agentC7 epC7 [promptContent "go"] [("gamma", "g")]).2.map
        GenSubmission.config = [statelessFinalConfig agentC7]
  ∧ (statelessFinalConfig agentC7).autoCallingDisable = some true
  ∧ (sendFunctionResultsStateless agentC7 epC7 [promptContent "go"] [("gamma", "g")]).1
      = Except.ok (some (finalTextOf respC7))
  ∧ (toolCallStateless agentC7 epC7 "go").submissions.length ≤ 2 :=
  claim_C7_final_round_disabled agentC7 epC7 "go" [promptContent "go"]
    [("gamma", "g")] respC7 (by decide) rfl

/-! ## Claim C8 -/

/-- Two prompt turns are equal only for equal prompts. -/
theorem promptContent_inj {p q : String}
    (h : promptContent p = promptContent q) : p = q := by
  simpa [promptContent, textPart] using h

/-- A prompt turn is never a tool-result turn: its single part carries
text, not a function response. -/
theorem promptContent_ne_resultContent (p : String)
    (results : List (String × String)) :
    promptContent p ≠ resultContent results := by
  intro h
  cases results with
  | nil =>
    simp [promptContent, resultContent, buildFunctionResponseParts, textPart] at h
  | cons x xs =>
    simp [promptContent, resultContent, buildFunctionResponseParts,
      functionResponsePart, textPart] at h

/-- Claim C8: every submission a stateless invocation with prompt p2
makes contains only turns of that invocation: each turn is either the
p2 prompt turn or a tool-result turn of this invocation, the config
carries the agent system instruction, and the prompt turn of a
different invocation with prompt p1 never appears. The stateless path
reads no mutable agent state, so this holds for any two sequential
invocations on the same agent. -/
theorem claim_C8_no_cross_leak (a : Agent) (ep : Endpoint) (p1 p2 : String)
    (sub : GenSubmission) (hne : p1 ≠ p2)
    (hsub : sub ∈ (toolCallStateless a ep p2).submissions) :
    promptContent p1 ∉ sub.contents
  ∧ sub.config.systemInstruction = a.systemInstruction
  ∧ ∀ c ∈ sub.contents,
      c = promptContent p2
    ∨ (c.role = "user" ∧ ∀ pt ∈ c.parts, pt.function_response ≠ none) := by
  have hresult : ∀ rs : List (String × String),
      ∀ pt ∈ (resultContent rs).parts, pt.function_response ≠ none := by
    intro rs pt hpt
    rcases List.mem_map.mp hpt with ⟨x, hx, rfl⟩
    simp [functionResponsePart]
  rcases toolCallStateless_submissions a ep p2 with h | ⟨results, h⟩
  · rw [h] at hsub
    rcases List.mem_singleton.mp hsub with rfl
    refine ⟨?_, rfl, ?_⟩
    · intro hmem
      exact hne (promptContent_inj (List.mem_singleton.mp hmem))
    · intro c hc
      exact Or.inl (List.mem_singleton.mp hc)
  · rw [h] at hsub
    rcases List.mem_pair.mp hsub with rfl | rfl
    · refine ⟨?_, rfl, ?_⟩
      · intro hmem
        exact hne (promptContent_inj (List.mem_singleton.mp hmem))
      · intro c hc
        exact Or.inl (List.mem_singleton.mp hc)
    · refine ⟨?_, rfl, ?_⟩
      · intro hmem
        rcases List.mem_pair.mp hmem with heq | heq
        · exact hne (promptContent_inj heq)
        · exact promptContent_ne_resultContent p1 results heq
      · intro c hc
        rcases List.mem_pair.mp hc with rfl | rfl
        · exact Or.inl rfl
        · exact Or.inr ⟨rfl, hresult results⟩

/-- Agent of the claim C8 witness. -/
def agentC8 : Agent := { model := "m" }

/-- Endpoint of the claim C8 witness. -/
def epC8 : Endpoint := fun _ => Except.error "halt"

/-- Witness for claim C8: the submission of a second invocation with a
different prompt never contains the first prompt turn. -/
theorem claim_C8_witness :
    promptContent "alpha question" ∉ (firstSub agentC8 "beta question").contents
  ∧ (firstSub agentC8 "beta question").config.systemInstruction
      = agentC8.systemInstruction
  ∧ ∀ c ∈ (firstSub agentC8 "beta question").contents,
      c = promptContent "beta question"
    ∨ (c.role = "user" ∧ ∀ pt ∈ c.parts, pt.function_response ≠ none) :=
  claim_C8_no_cross_leak agentC8 epC8 "alpha question" "beta question"
    (firstSub agentC8 "beta question") (by decide) (by decide)

/-! ## Claim C9 -/

/-- Claim C9: when every endpoint submission fails, the failure is not
retried and propagates: the stateless path returns the error after the
single attempted submission; the memory path returns the raised error
with the chat session exactly as it was before the failed submission,
both on the first round and on a resubmission round; and the stateless
resubmission step propagates the error as well. -/
theorem claim_C9_endpoint_failure (a : Agent) (ep : Endpoint)
    (prompt : String) (e : String) (s : ChatSession) (fuel : Nat)
    (cc : List Content) (results : List (String × String))
    (hfail : ∀ sub, ep sub = Except.error e) :
    (toolCallStateless a ep prompt).result = Except.error e
  ∧ (toolCallStateless a ep prompt).submissions = [firstSub a prompt]
  ∧ toolCallMemory a ep s prompt fuel = MemOutcome.raised e s
  ∧ sendFunctionResultsMemory a.tools ep (memoryConfig a) s results (fuel + 1)
      = MemOutcome.raised e s
  ∧ (sendFunctionResultsStateless a ep cc results).1 = Except.error e := by
  refine ⟨?_, ?_, ?_, ?_, ?_⟩ <;>
    simp [toolCallStateless, toolCallMemory, sendFunctionResultsMemory,
      sendFunctionResultsStateless, ChatSession.sendMessage, hfail]

/-- Memory-enabled agent of the claim C9 witness. -/
def agentC9 : Agent := { model := "m", memory := true }

/-- Always-failing endpoint of the claim C9 witness. -/
def epC9 : Endpoint := fun _ => Except.error "network down"

/-- Chat session of the claim C9 witness. -/
def sessC9 : ChatSession := { history := [promptContent "earlier"] }

/-- Witness for claim C9 at a concrete failing endpoint. -/
theorem claim_C9_witness :
    (toolCallStateless agentC9 epC9 "go").result = Except.error "network down"
  ∧ (toolCallStateless agentC9 epC9 "go").submissions = [firstSub agentC9 "go"]
  ∧ toolCallMemory agentC9 epC9 sessC9 "go" 3
      = MemOutcome.raised "network down" sessC9
  ∧ sendFunctionResultsMemory agentC9.tools epC9 (memoryConfig agentC9)
        sessC9 [("t", "v")] (3 + 1)
      = MemOutcome.raised "network down" sessC9
  ∧ (sendFunctionResultsStateless agentC9 epC9 [promptContent "go"] [("t", "v")]).1
      = Except.error "network down" :=
  claim_C9_endpoint_failure agentC9 epC9 "go" "network down" sessC9 3
    [promptContent "go"] [("t", "v")] (fun _ => rfl)

end Gemini
